import Mathlib

/-!
Verification of the vtparse DEC-compatible escape-sequence parser
(src/vtparse.c): a shallow embedding of the state-machine driver,
action executor, print coalescer and UTF-8 byte front end, together with
theorems settling the specification claims.

Modelling conventions:
- The callback is modelled by returning the list of emitted events; each
  event records the action, the code-point argument and a snapshot of the
  host-visible parser fields at callback time.
- The C arrays intermediate_chars / params / print_buf together with their
  length counters are modelled as lists holding exactly the visible prefix
  (num_intermediate_chars = intermediate_chars.length, and so on); contents
  beyond the counter are not observable through the callback contract.
- C unsigned int arithmetic is Nat with explicit reduction mod 2^32 where
  overflow can occur; the int-typed parameter accumulator is Int wrapped to
  the signed 32-bit range by wrap32.
- vtparse.h and the generated state tables are not part of src/;
  the constants and the three tables are modelled from the spec (Williams
  state machine), marked below.
-/

/-- The 14 machine states of the Williams state machine (vtparse_state_t).
The C encoding numbers them from 1; 0 in a packed state change means
"no state change" and is modelled by Option. -/
inductive VTState where
  | ground
  | escape
  | escapeIntermediate
  | csiEntry
  | csiParam
  | csiIntermediate
  | csiIgnore
  | dcsEntry
  | dcsParam
  | dcsIntermediate
  | dcsPassthrough
  | dcsIgnore
  | oscString
  | sosPmApcString
deriving DecidableEq

/-- The actions of vtparse_action_t, including the internal ERROR signal.
The C encoding numbers them from 1; 0 in a packed state change means
"no action" and is modelled by Option. -/
inductive VTAction where
  | print
  | execute
  | hook
  | put
  | oscStart
  | oscPut
  | oscEnd
  | unhook
  | csiDispatch
  | escDispatch
  | ignore
  | collect
  | param
  | clear
  | error
deriving DecidableEq

/-- The parser state vtparse_t (minus the callback pointer, which is
modelled by returning event lists).  Lists hold the visible prefixes of
the C arrays; their lengths model the C counters. -/
structure VTParser where
  state : VTState
  intermediate_chars : List Nat
  params : List Int
  ignore_flagged : Bool
  ch_bytes : Nat
  utf8_ch : Nat
  print_buf : List Nat
deriving DecidableEq

/-- One callback invocation: the action, the code-point argument, and the
snapshot of the host-visible parser fields at callback time (the host may
read state, the accumulator prefixes, the flag and the print buffer). -/
structure VTEvent where
  action : VTAction
  ch : Nat
  state : VTState
  intermediate_chars : List Nat
  params : List Int
  ignore_flagged : Bool
  print_buf : List Nat
deriving DecidableEq

/-- Modelled from the spec: MAX_INTERMEDIATE_CHARS is defined in the
missing header vtparse.h; the spec fixes the intermediate capacity at 2. -/
def MAX_INTERMEDIATE_CHARS : Nat := 2

/-- Modelled from the spec: MAX_PARAMS is defined in the missing header
vtparse.h; the spec fixes the parameter capacity at 16.  Note that
do_action's PARAM case never consults this bound. -/
def MAX_PARAMS : Nat := 16

/-- Modelled from the spec: PRINT_BUFFER_SIZE is defined in the missing
header vtparse.h; the spec only requires a capacity of at least about 64
code points, so the concrete value is a representative choice.  No claim
depends on the exact value. -/
def PRINT_BUFFER_SIZE : Nat := 100

/-- Reduction of a C int computation to the signed 32-bit value it stores
(two's complement wrap-around). -/
def wrap32 (x : Int) : Int := (x + 2147483648) % 4294967296 - 2147483648

/-- Snapshot of the host-visible parser fields taken when the callback is
invoked with the given action and code point. -/
def snap (p : VTParser) (a : VTAction) (ch : Nat) : VTEvent :=
  ⟨a, ch, p.state, p.intermediate_chars, p.params, p.ignore_flagged, p.print_buf⟩

/-- Update the current (last) parameter: params[num_params-1] is multiplied
by 10 and the digit value is added, each step wrapping as a C int
(vtparse.c lines 77-79). -/
def bumpLast (ch : Nat) : List Int → List Int
  | [] => []
  | [v] => [wrap32 (wrap32 (v * 10) + ((ch : Int) - 48))]
  | v :: vs => v :: bumpLast ch vs

/-- The action executor do_action (vtparse.c lines 24-94).  The argument is
the raw action field of a state change: none models the 0 code, which the
C switch sends to the default branch, surfacing ERROR with code point 0.
The ten host actions are forwarded as events; COLLECT, PARAM, CLEAR and
IGNORE are internal. -/
def do_action (p : VTParser) (a : Option VTAction) (ch : Nat) :
    VTParser × List VTEvent :=
  match a with
  | some VTAction.print => (p, [snap p VTAction.print ch])
  | some VTAction.execute => (p, [snap p VTAction.execute ch])
  | some VTAction.hook => (p, [snap p VTAction.hook ch])
  | some VTAction.put => (p, [snap p VTAction.put ch])
  | some VTAction.oscStart => (p, [snap p VTAction.oscStart ch])
  | some VTAction.oscPut => (p, [snap p VTAction.oscPut ch])
  | some VTAction.oscEnd => (p, [snap p VTAction.oscEnd ch])
  | some VTAction.unhook => (p, [snap p VTAction.unhook ch])
  | some VTAction.csiDispatch => (p, [snap p VTAction.csiDispatch ch])
  | some VTAction.escDispatch => (p, [snap p VTAction.escDispatch ch])
  | some VTAction.ignore => (p, [])
  | some VTAction.collect =>
      if MAX_INTERMEDIATE_CHARS < p.intermediate_chars.length + 1 then
        ({p with ignore_flagged := true}, [])
      else
        ({p with intermediate_chars := p.intermediate_chars ++ [ch % 256]}, [])
  | some VTAction.param =>
      if ch = 0x3B then
        ({p with params := p.params ++ [0]}, [])
      else
        let p1 := if p.params.length = 0 then {p with params := [0]} else p
        ({p1 with params := bumpLast ch p1.params}, [])
  | some VTAction.clear =>
      ({p with intermediate_chars := [], params := [], ignore_flagged := false}, [])
  | some VTAction.error => (p, [snap p VTAction.error 0])
  | none => (p, [snap p VTAction.error 0])

/-- A table transition (state_change_t): an optional target state and an
optional action, the packed "0 means none" sentinels made explicit. -/
structure StateChange where
  toState : Option VTState
  action : Option VTAction
deriving DecidableEq

/-- Modelled from the spec: ENTRY_ACTIONS lives in the generated table file
that is not under src/.  Per the spec, CLEAR runs on entering ESCAPE and
every ENTRY state, OSC_START on entering OSC_STRING and HOOK on entering
DCS_PASSTHROUGH (Williams state machine). -/
def ENTRY_ACTIONS : VTState → Option VTAction
  | VTState.escape => some VTAction.clear
  | VTState.csiEntry => some VTAction.clear
  | VTState.dcsEntry => some VTAction.clear
  | VTState.oscString => some VTAction.oscStart
  | VTState.dcsPassthrough => some VTAction.hook
  | _ => none

/-- Modelled from the spec: EXIT_ACTIONS lives in the generated table file
that is not under src/.  Per the spec, OSC_END runs on leaving OSC_STRING
and UNHOOK on leaving DCS_PASSTHROUGH (Williams state machine). -/
def EXIT_ACTIONS : VTState → Option VTAction
  | VTState.oscString => some VTAction.oscEnd
  | VTState.dcsPassthrough => some VTAction.unhook
  | _ => none

/-- Modelled from the spec: the anywhere transitions of the Williams state
machine, which take precedence in every state. -/
def anywhere_change (ch : Nat) : Option StateChange :=
  if ch = 0x18 ∨ ch = 0x1A then some ⟨some VTState.ground, some VTAction.execute⟩
  else if ch = 0x1B then some ⟨some VTState.escape, none⟩
  else if (0x80 ≤ ch ∧ ch ≤ 0x8F) ∨ (0x91 ≤ ch ∧ ch ≤ 0x97) ∨ ch = 0x99 ∨ ch = 0x9A then
    some ⟨some VTState.ground, some VTAction.execute⟩
  else if ch = 0x9C then some ⟨some VTState.ground, none⟩
  else if ch = 0x90 then some ⟨some VTState.dcsEntry, none⟩
  else if ch = 0x98 ∨ ch = 0x9E ∨ ch = 0x9F then some ⟨some VTState.sosPmApcString, none⟩
  else if ch = 0x9B then some ⟨some VTState.csiEntry, none⟩
  else if ch = 0x9D then some ⟨some VTState.oscString, none⟩
  else none

/-- C0 controls handled inside a state row (the anywhere set already caught
0x18, 0x1A and 0x1B). -/
def c0row (ch : Nat) : Prop := ch ≤ 0x17 ∨ ch = 0x19 ∨ (0x1C ≤ ch ∧ ch ≤ 0x1F)

instance (ch : Nat) : Decidable (c0row ch) := by unfold c0row; infer_instance

/-- Modelled from the spec: the GROUND row of STATE_TABLE. -/
def table_ground (ch : Nat) : StateChange :=
  if c0row ch then ⟨none, some VTAction.execute⟩
  else if 0x20 ≤ ch ∧ ch ≤ 0x7F then ⟨none, some VTAction.print⟩
  else ⟨none, none⟩

/-- Modelled from the spec: the ESCAPE row of STATE_TABLE. -/
def table_escape (ch : Nat) : StateChange :=
  if c0row ch then ⟨none, some VTAction.execute⟩
  else if 0x20 ≤ ch ∧ ch ≤ 0x2F then ⟨some VTState.escapeIntermediate, some VTAction.collect⟩
  else if 0x30 ≤ ch ∧ ch ≤ 0x4F then ⟨some VTState.ground, some VTAction.escDispatch⟩
  else if ch = 0x50 then ⟨some VTState.dcsEntry, none⟩
  else if 0x51 ≤ ch ∧ ch ≤ 0x57 then ⟨some VTState.ground, some VTAction.escDispatch⟩
  else if ch = 0x58 then ⟨some VTState.sosPmApcString, none⟩
  else if ch = 0x59 ∨ ch = 0x5A then ⟨some VTState.ground, some VTAction.escDispatch⟩
  else if ch = 0x5B then ⟨some VTState.csiEntry, none⟩
  else if ch = 0x5C then ⟨some VTState.ground, some VTAction.escDispatch⟩
  else if ch = 0x5D then ⟨some VTState.oscString, none⟩
  else if ch = 0x5E ∨ ch = 0x5F then ⟨some VTState.sosPmApcString, none⟩
  else if 0x60 ≤ ch ∧ ch ≤ 0x7E then ⟨some VTState.ground, some VTAction.escDispatch⟩
  else if ch = 0x7F then ⟨none, some VTAction.ignore⟩
  else ⟨none, none⟩

/-- Modelled from the spec: the ESCAPE_INTERMEDIATE row of STATE_TABLE. -/
def table_escape_intermediate (ch : Nat) : StateChange :=
  if c0row ch then ⟨none, some VTAction.execute⟩
  else if 0x20 ≤ ch ∧ ch ≤ 0x2F then ⟨none, some VTAction.collect⟩
  else if 0x30 ≤ ch ∧ ch ≤ 0x7E then ⟨some VTState.ground, some VTAction.escDispatch⟩
  else if ch = 0x7F then ⟨none, some VTAction.ignore⟩
  else ⟨none, none⟩

/-- Modelled from the spec: the CSI_ENTRY row of STATE_TABLE. -/
def table_csi_entry (ch : Nat) : StateChange :=
  if c0row ch then ⟨none, some VTAction.execute⟩
  else if 0x20 ≤ ch ∧ ch ≤ 0x2F then ⟨some VTState.csiIntermediate, some VTAction.collect⟩
  else if (0x30 ≤ ch ∧ ch ≤ 0x39) ∨ ch = 0x3B then ⟨some VTState.csiParam, some VTAction.param⟩
  else if ch = 0x3A then ⟨some VTState.csiIgnore, none⟩
  else if 0x3C ≤ ch ∧ ch ≤ 0x3F then ⟨some VTState.csiParam, some VTAction.collect⟩
  else if 0x40 ≤ ch ∧ ch ≤ 0x7E then ⟨some VTState.ground, some VTAction.csiDispatch⟩
  else if ch = 0x7F then ⟨none, some VTAction.ignore⟩
  else ⟨none, none⟩

/-- Modelled from the spec: the CSI_PARAM row of STATE_TABLE. -/
def table_csi_param (ch : Nat) : StateChange :=
  if c0row ch then ⟨none, some VTAction.execute⟩
  else if 0x20 ≤ ch ∧ ch ≤ 0x2F then ⟨some VTState.csiIntermediate, some VTAction.collect⟩
  else if (0x30 ≤ ch ∧ ch ≤ 0x39) ∨ ch = 0x3B then ⟨none, some VTAction.param⟩
  else if ch = 0x3A ∨ (0x3C ≤ ch ∧ ch ≤ 0x3F) then ⟨some VTState.csiIgnore, none⟩
  else if 0x40 ≤ ch ∧ ch ≤ 0x7E then ⟨some VTState.ground, some VTAction.csiDispatch⟩
  else if ch = 0x7F then ⟨none, some VTAction.ignore⟩
  else ⟨none, none⟩

/-- Modelled from the spec: the CSI_INTERMEDIATE row of STATE_TABLE. -/
def table_csi_intermediate (ch : Nat) : StateChange :=
  if c0row ch then ⟨none, some VTAction.execute⟩
  else if 0x20 ≤ ch ∧ ch ≤ 0x2F then ⟨none, some VTAction.collect⟩
  else if 0x30 ≤ ch ∧ ch ≤ 0x3F then ⟨some VTState.csiIgnore, none⟩
  else if 0x40 ≤ ch ∧ ch ≤ 0x7E then ⟨some VTState.ground, some VTAction.csiDispatch⟩
  else if ch = 0x7F then ⟨none, some VTAction.ignore⟩
  else ⟨none, none⟩

/-- Modelled from the spec: the CSI_IGNORE row of STATE_TABLE. -/
def table_csi_ignore (ch : Nat) : StateChange :=
  if c0row ch then ⟨none, some VTAction.execute⟩
  else if 0x20 ≤ ch ∧ ch ≤ 0x3F then ⟨none, some VTAction.ignore⟩
  else if 0x40 ≤ ch ∧ ch ≤ 0x7E then ⟨some VTState.ground, none⟩
  else if ch = 0x7F then ⟨none, some VTAction.ignore⟩
  else ⟨none, none⟩

/-- Modelled from the spec: the DCS_ENTRY row of STATE_TABLE. -/
def table_dcs_entry (ch : Nat) : StateChange :=
  if c0row ch then ⟨none, some VTAction.ignore⟩
  else if 0x20 ≤ ch ∧ ch ≤ 0x2F then ⟨some VTState.dcsIntermediate, some VTAction.collect⟩
  else if (0x30 ≤ ch ∧ ch ≤ 0x39) ∨ ch = 0x3B then ⟨some VTState.dcsParam, some VTAction.param⟩
  else if ch = 0x3A then ⟨some VTState.dcsIgnore, none⟩
  else if 0x3C ≤ ch ∧ ch ≤ 0x3F then ⟨some VTState.dcsParam, some VTAction.collect⟩
  else if 0x40 ≤ ch ∧ ch ≤ 0x7E then ⟨some VTState.dcsPassthrough, none⟩
  else if ch = 0x7F then ⟨none, some VTAction.ignore⟩
  else ⟨none, none⟩

/-- Modelled from the spec: the DCS_PARAM row of STATE_TABLE. -/
def table_dcs_param (ch : Nat) : StateChange :=
  if c0row ch then ⟨none, some VTAction.ignore⟩
  else if 0x20 ≤ ch ∧ ch ≤ 0x2F then ⟨some VTState.dcsIntermediate, some VTAction.collect⟩
  else if (0x30 ≤ ch ∧ ch ≤ 0x39) ∨ ch = 0x3B then ⟨none, some VTAction.param⟩
  else if ch = 0x3A ∨ (0x3C ≤ ch ∧ ch ≤ 0x3F) then ⟨some VTState.dcsIgnore, none⟩
  else if 0x40 ≤ ch ∧ ch ≤ 0x7E then ⟨some VTState.dcsPassthrough, none⟩
  else if ch = 0x7F then ⟨none, some VTAction.ignore⟩
  else ⟨none, none⟩

/-- Modelled from the spec: the DCS_INTERMEDIATE row of STATE_TABLE. -/
def table_dcs_intermediate (ch : Nat) : StateChange :=
  if c0row ch then ⟨none, some VTAction.ignore⟩
  else if 0x20 ≤ ch ∧ ch ≤ 0x2F then ⟨none, some VTAction.collect⟩
  else if 0x30 ≤ ch ∧ ch ≤ 0x3F then ⟨some VTState.dcsIgnore, none⟩
  else if 0x40 ≤ ch ∧ ch ≤ 0x7E then ⟨some VTState.dcsPassthrough, none⟩
  else if ch = 0x7F then ⟨none, some VTAction.ignore⟩
  else ⟨none, none⟩

/-- Modelled from the spec: the DCS_PASSTHROUGH row of STATE_TABLE. -/
def table_dcs_passthrough (ch : Nat) : StateChange :=
  if c0row ch then ⟨none, some VTAction.put⟩
  else if 0x20 ≤ ch ∧ ch ≤ 0x7E then ⟨none, some VTAction.put⟩
  else if ch = 0x7F then ⟨none, some VTAction.ignore⟩
  else ⟨none, none⟩

/-- Modelled from the spec: the DCS_IGNORE row of STATE_TABLE. -/
def table_dcs_ignore (ch : Nat) : StateChange :=
  if c0row ch then ⟨none, some VTAction.ignore⟩
  else if 0x20 ≤ ch ∧ ch ≤ 0x7F then ⟨none, some VTAction.ignore⟩
  else ⟨none, none⟩

/-- Modelled from the spec: the OSC_STRING row of STATE_TABLE; per the
spec's OSC scenario, BEL (0x07) terminates the OSC string. -/
def table_osc_string (ch : Nat) : StateChange :=
  if ch = 0x07 then ⟨some VTState.ground, none⟩
  else if c0row ch then ⟨none, some VTAction.ignore⟩
  else if 0x20 ≤ ch ∧ ch ≤ 0x7F then ⟨none, some VTAction.oscPut⟩
  else ⟨none, none⟩

/-- Modelled from the spec: the SOS_PM_APC_STRING row of STATE_TABLE. -/
def table_sos_pm_apc (ch : Nat) : StateChange :=
  if c0row ch then ⟨none, some VTAction.ignore⟩
  else if 0x20 ≤ ch ∧ ch ≤ 0x7F then ⟨none, some VTAction.ignore⟩
  else ⟨none, none⟩

/-- Modelled from the spec: STATE_TABLE lives in the generated table file
that is not under src/; this is the Williams state machine the spec
describes, with anywhere transitions taking precedence.  The C code indexes
the table with the raw code point; indices above 0xFF read out of bounds in
C (the spec declares this avoided and undefined), modelled here as an empty
transition. -/
def STATE_TABLE (s : VTState) (ch : Nat) : StateChange :=
  match anywhere_change ch with
  | some c => c
  | none =>
    if ch ≤ 0xFF then
      match s with
      | VTState.ground => table_ground ch
      | VTState.escape => table_escape ch
      | VTState.escapeIntermediate => table_escape_intermediate ch
      | VTState.csiEntry => table_csi_entry ch
      | VTState.csiParam => table_csi_param ch
      | VTState.csiIntermediate => table_csi_intermediate ch
      | VTState.csiIgnore => table_csi_ignore ch
      | VTState.dcsEntry => table_dcs_entry ch
      | VTState.dcsParam => table_dcs_param ch
      | VTState.dcsIntermediate => table_dcs_intermediate ch
      | VTState.dcsPassthrough => table_dcs_passthrough ch
      | VTState.dcsIgnore => table_dcs_ignore ch
      | VTState.oscString => table_osc_string ch
      | VTState.sosPmApcString => table_sos_pm_apc ch
    else ⟨none, none⟩

/-- The guard if(action) do_action(parser, action, ch) used inside the
state-change branch of do_state_change: a zero action is skipped there. -/
def guarded_action (p : VTParser) (a : Option VTAction) (ch : Nat) :
    VTParser × List VTEvent :=
  match a with
  | some x => do_action p (some x) ch
  | none => (p, [])

/-- The state-change driver do_state_change (vtparse.c lines 96-130).
With a target state it runs exit action (code point 0), transition action
(triggering code point) and entry action (code point 0), each only when
present, then assigns the new state; without a target state it hands the
raw action field to do_action unconditionally. -/
def do_state_change (p : VTParser) (c : StateChange) (ch : Nat) :
    VTParser × List VTEvent :=
  match c.toState with
  | some ns =>
    let r1 := guarded_action p (EXIT_ACTIONS p.state) 0
    let r2 := guarded_action r1.1 c.action ch
    let r3 := guarded_action r2.1 (ENTRY_ACTIONS ns) 0
    ({r3.1 with state := ns}, r1.2 ++ r2.2 ++ r3.2)
  | none => do_action p c.action ch

/-- The print-buffer drain do_print (vtparse.c lines 132-140): zero the
accumulators, dispatch PRINT through do_state_change (the packed argument
VTPARSE_ACTION_PRINT decodes to "no state change, action PRINT"), then
reset the buffer length.  The NUL terminator written at print_buf[len] is
invisible in the length-prefix list model. -/
def do_print (p : VTParser) : VTParser × List VTEvent :=
  let p1 : VTParser :=
    {p with intermediate_chars := [], params := [], ignore_flagged := false}
  let r := do_state_change p1 ⟨none, some VTAction.print⟩ 0
  ({r.1 with print_buf := []}, r.2)

/-- Per-code-point driver parse_ch (vtparse.c lines 142-158): ground-state
printables (at least 0x20) are coalesced into the print buffer, draining
within one slot of capacity; anything else drains a pending buffer and runs
the table transition. -/
def parse_ch (p : VTParser) (ch : Nat) : VTParser × List VTEvent :=
  if p.state = VTState.ground ∧ 0x20 ≤ ch then
    let p1 : VTParser := {p with print_buf := p.print_buf ++ [ch]}
    if PRINT_BUFFER_SIZE - 1 ≤ p1.print_buf.length then do_print p1 else (p1, [])
  else
    let d := if p.print_buf.length ≠ 0 then do_print p else (p, [])
    let r := do_state_change d.1 (STATE_TABLE d.1.state ch) ch
    (r.1, d.2 ++ r.2)

/-- One iteration of the byte loop of vtparse (vtparse.c lines 163-207).
The loop variable ch is an unsigned char: the assignment
ch = utf8_ch = (utf8_ch << 6) | (ch & 0x3F) stores the full accumulator in
utf8_ch but truncates the value kept in ch to 8 bits, so a completed
multi-byte sequence hands parse_ch the code point reduced mod 256. -/
def vtparse_byte (p : VTParser) (b : Fin 256) : VTParser × List VTEvent :=
  if p.ch_bytes ≠ 1 then
    let u : Nat := (p.utf8_ch * 64) % 4294967296 + b.val % 64
    let ch : Nat := u % 256
    let p1 : VTParser := {p with utf8_ch := u, ch_bytes := p.ch_bytes - 1}
    if p1.ch_bytes ≠ 1 then (p1, []) else parse_ch p1 ch
  else if 0x80 ≤ b.val then
    let bit : Nat :=
      if (b.val / 64) % 2 = 0 then 6
      else if (b.val / 32) % 2 = 0 then 5
      else if (b.val / 16) % 2 = 0 then 4
      else if (b.val / 8) % 2 = 0 then 3
      else if (b.val / 4) % 2 = 0 then 2
      else 1
    let cb : Nat := 7 - bit
    let u : Nat :=
      match cb with
      | 2 => b.val % 32
      | 3 => b.val % 16
      | 4 => b.val % 8
      | 5 => b.val % 4
      | 6 => b.val % 2
      | _ => 0
    ({p with utf8_ch := u, ch_bytes := cb}, [])
  else
    parse_ch p b.val

/-- The byte loop of vtparse over a whole chunk, before the final drain. -/
def processBytes : VTParser → List (Fin 256) → VTParser × List VTEvent
  | p, [] => (p, [])
  | p, b :: rest =>
    let r1 := vtparse_byte p b
    let r2 := processBytes r1.1 rest
    (r2.1, r1.2 ++ r2.2)

/-- The byte-stream feed entry point vtparse (vtparse.c lines 160-212):
process every byte, then drain a non-empty print buffer. -/
def vtparse (p : VTParser) (data : List (Fin 256)) : VTParser × List VTEvent :=
  let r := processBytes p data
  if r.1.print_buf.length ≠ 0 then ((do_print r.1).1, r.2 ++ (do_print r.1).2)
  else r

/-- The code-point loop of vtparsew over a whole chunk, before the final
drain. -/
def processCodePoints : VTParser → List Nat → VTParser × List VTEvent
  | p, [] => (p, [])
  | p, w :: rest =>
    let r1 := parse_ch p w
    let r2 := processCodePoints r1.1 rest
    (r2.1, r1.2 ++ r2.2)

/-- The wide (pre-decoded code point) feed entry point vtparsew
(vtparse.c lines 214-225). -/
def vtparsew (p : VTParser) (data : List Nat) : VTParser × List VTEvent :=
  let r := processCodePoints p data
  if r.1.print_buf.length ≠ 0 then ((do_print r.1).1, r.2 ++ (do_print r.1).2)
  else r

/-- The freshly initialized parser state set up by vtparse_init
(vtparse.c lines 11-22). -/
def vtparse_init : VTParser :=
  ⟨VTState.ground, [], [], false, 1, 0, []⟩

/-- The events of an event stream other than PRINT events (used to state
stream equivalence: these must match exactly, snapshots included). -/
def nonPrintEvents (es : List VTEvent) : List VTEvent :=
  es.filter (fun e => e.action ≠ VTAction.print)

/-- The concatenation of the code-point payloads carried by the PRINT
events of an event stream (the host reads the print buffer snapshot). -/
def printPayload : List VTEvent → List Nat
  | [] => []
  | e :: es =>
    (if e.action = VTAction.print then e.print_buf else []) ++ printPayload es

/-- Sequencing of unconditional action executions, used to state the
exit / transition / entry ordering of do_state_change. -/
def run_acts : VTParser → List (VTAction × Nat) → VTParser × List VTEvent
  | p, [] => (p, [])
  | p, (a, c) :: rest =>
    let r1 := do_action p (some a) c
    let r2 := run_acts r1.1 rest
    (r2.1, r1.2 ++ r2.2)

/-- An optional action together with its code-point argument, as the list
of executions it contributes (present actions run, absent ones are
skipped). -/
def opt_act (a : Option VTAction) (c : Nat) : List (VTAction × Nat) :=
  match a with
  | some x => [(x, c)]
  | none => []

/-- Ghost tracker for the flag discipline: records whether some COLLECT
has been rejected for capacity since the most recent CLEAR action.  It is
set exactly by a COLLECT arriving with the intermediates at capacity and
reset exactly by CLEAR. -/
def ghost_action (g : Bool) (p : VTParser) (a : Option VTAction) : Bool :=
  match a with
  | some VTAction.clear => false
  | some VTAction.collect =>
      if MAX_INTERMEDIATE_CHARS < p.intermediate_chars.length + 1 then true else g
  | _ => g

/-- The ghost tracker threaded through the action sequence performed by
do_state_change. -/
def ghost_state_change (g : Bool) (p : VTParser) (c : StateChange) (ch : Nat) : Bool :=
  match c.toState with
  | some ns =>
    let g1 := ghost_action g p (EXIT_ACTIONS p.state)
    let p1 := (guarded_action p (EXIT_ACTIONS p.state) 0).1
    let g2 := ghost_action g1 p1 c.action
    let p2 := (guarded_action p1 c.action ch).1
    ghost_action g2 p2 (ENTRY_ACTIONS ns)
  | none => ghost_action g p c.action

/-- The ghost tracker threaded through parse_ch (draining the print buffer
runs only the PRINT action, which does not touch it). -/
def ghost_parse_ch (g : Bool) (p : VTParser) (ch : Nat) : Bool :=
  if p.state = VTState.ground ∧ 0x20 ≤ ch then g
  else
    let d := if p.print_buf.length ≠ 0 then do_print p else (p, [])
    ghost_state_change g d.1 (STATE_TABLE d.1.state ch) ch

/-- The ghost tracker threaded through one byte of vtparse. -/
def ghost_byte (g : Bool) (p : VTParser) (b : Fin 256) : Bool :=
  if p.ch_bytes ≠ 1 then
    let u : Nat := (p.utf8_ch * 64) % 4294967296 + b.val % 64
    let p1 : VTParser := {p with utf8_ch := u, ch_bytes := p.ch_bytes - 1}
    if p1.ch_bytes ≠ 1 then g else ghost_parse_ch g p1 (u % 256)
  else if 0x80 ≤ b.val then g
  else ghost_parse_ch g p b.val

/-- The ghost tracker threaded through a whole byte chunk. -/
def ghost_bytes : Bool → VTParser → List (Fin 256) → Bool
  | g, _, [] => g
  | g, p, b :: rest => ghost_bytes (ghost_byte g p b) (vtparse_byte p b).1 rest

/-- All accumulators empty or cleared: the state do_print and CLEAR leave
them in. -/
def countersZero (p : VTParser) : Prop :=
  p.intermediate_chars = [] ∧ p.params = [] ∧ p.ignore_flagged = false

/-- The fields never touched by the print coalescer: machine state and
UTF-8 decoder registers. -/
def coreEq (p q : VTParser) : Prop :=
  p.state = q.state ∧ p.ch_bytes = q.ch_bytes ∧ p.utf8_ch = q.utf8_ch

/-- Simulation relation between the run that feeds a chunk boundary (q,
which has just drained) and the uninterrupted run (p): either the two
parsers agree exactly, or both have been drained at some point and only
their pending print buffers differ, or p still carries accumulators and a
buffer that extends q's by a non-empty prefix it has yet to drain. -/
def SplitRel (p q : VTParser) : Prop :=
  p = q ∨
  (coreEq p q ∧ countersZero p ∧ countersZero q) ∨
  (coreEq p q ∧ countersZero q ∧ ∃ u, u ≠ [] ∧ p.print_buf = u ++ q.print_buf)

/-- The printable code points a parse_ch step appends to the print buffer
(one for a ground-state printable, none otherwise). -/
def deltaCh (p : VTParser) (ch : Nat) : List Nat :=
  if p.state = VTState.ground ∧ 0x20 ≤ ch then [ch] else []

/-- The printable code points a vtparse byte step appends to the print
buffer. -/
def deltaByte (p : VTParser) (b : Fin 256) : List Nat :=
  if p.ch_bytes ≠ 1 then
    let u : Nat := (p.utf8_ch * 64) % 4294967296 + b.val % 64
    if p.ch_bytes - 1 ≠ 1 then []
    else deltaCh {p with utf8_ch := u, ch_bytes := p.ch_bytes - 1} (u % 256)
  else if 0x80 ≤ b.val then []
  else deltaCh p b.val

/-- The parser state after the conditional drain performed at the top of
the non-printable branch of parse_ch and at the end of a feed call. -/
def drainIf (p : VTParser) : VTParser :=
  if p.print_buf.length ≠ 0 then (do_print p).1 else p

/-- The events emitted by that conditional drain. -/
def drainEvents (p : VTParser) : List VTEvent :=
  if p.print_buf.length ≠ 0 then (do_print p).2 else []

/-- Every active parameter lies in the signed 32-bit range. -/
def paramsInRange (p : VTParser) : Prop :=
  ∀ v ∈ p.params, -2147483648 ≤ v ∧ v < 2147483648

/-- ESC [ followed by seventeen semicolons. -/
def c1_failing_input : List (Fin 256) := [0x1B, 0x5B] ++ List.replicate 17 0x3B

/-- ESC [ followed by the decimal digits of 2147483648. -/
def c6_failing_input : List (Fin 256) :=
  [0x1B, 0x5B, 0x32, 0x31, 0x34, 0x37, 0x34, 0x38, 0x33, 0x36, 0x34, 0x38]

/-- The UTF-8 encoding E2 98 83 of U+2603. -/
def c8_failing_input : List (Fin 256) := [0xE2, 0x98, 0x83]

/-! ### Preservation lemmas for the action executor and driver -/

lemma do_action_fields (p : VTParser) (a : Option VTAction) (ch : Nat) :
    (do_action p a ch).1.state = p.state ∧
    (do_action p a ch).1.ch_bytes = p.ch_bytes ∧
    (do_action p a ch).1.utf8_ch = p.utf8_ch ∧
    (do_action p a ch).1.print_buf = p.print_buf := by
  rcases a with _ | a
  · simp [do_action]
  · cases a
    all_goals simp only [do_action]
    all_goals repeat' split
    all_goals simp

lemma do_action_events (p : VTParser) (a : Option VTAction) (ch : Nat) :
    ∀ e ∈ (do_action p a ch).2, e.state = p.state ∧ e.print_buf = p.print_buf := by
  rcases a with _ | a
  · simp [do_action, snap]
  · cases a
    all_goals simp only [do_action, snap]
    all_goals repeat' split
    all_goals simp

lemma guarded_fields (p : VTParser) (a : Option VTAction) (ch : Nat) :
    (guarded_action p a ch).1.state = p.state ∧
    (guarded_action p a ch).1.ch_bytes = p.ch_bytes ∧
    (guarded_action p a ch).1.utf8_ch = p.utf8_ch ∧
    (guarded_action p a ch).1.print_buf = p.print_buf := by
  rcases a with _ | a
  · simp [guarded_action]
  · exact do_action_fields p (some a) ch

lemma guarded_events (p : VTParser) (a : Option VTAction) (ch : Nat) :
    ∀ e ∈ (guarded_action p a ch).2, e.state = p.state ∧ e.print_buf = p.print_buf := by
  rcases a with _ | a
  · simp [guarded_action]
  · exact do_action_events p (some a) ch

lemma do_state_change_fields (p : VTParser) (c : StateChange) (ch : Nat) :
    (do_state_change p c ch).1.ch_bytes = p.ch_bytes ∧
    (do_state_change p c ch).1.utf8_ch = p.utf8_ch ∧
    (do_state_change p c ch).1.print_buf = p.print_buf ∧
    (do_state_change p c ch).1.state =
      (match c.toState with | some ns => ns | none => p.state) ∧
    (∀ e ∈ (do_state_change p c ch).2, e.state = p.state ∧ e.print_buf = p.print_buf) := by
  rcases c with ⟨ts, a⟩
  rcases ts with _ | ns
  · refine ⟨(do_action_fields p a ch).2.1, (do_action_fields p a ch).2.2.1,
      (do_action_fields p a ch).2.2.2, (do_action_fields p a ch).1, ?_⟩
    exact do_action_events p a ch
  · simp only [do_state_change]
    obtain ⟨h1s, h1c, h1u, h1b⟩ := guarded_fields p (EXIT_ACTIONS p.state) 0
    obtain ⟨h2s, h2c, h2u, h2b⟩ :=
      guarded_fields (guarded_action p (EXIT_ACTIONS p.state) 0).1 a ch
    obtain ⟨h3s, h3c, h3u, h3b⟩ :=
      guarded_fields ((guarded_action (guarded_action p (EXIT_ACTIONS p.state) 0).1 a ch)).1
        (ENTRY_ACTIONS ns) 0
    refine ⟨by simp [h3c, h2c, h1c], by simp [h3u, h2u, h1u], by simp [h3b, h2b, h1b],
      by simp, ?_⟩
    intro e he
    simp only [List.mem_append] at he
    rcases he with (he | he) | he
    · exact guarded_events _ _ _ e he
    · have := guarded_events _ a ch e he
      exact ⟨by rw [this.1, h1s], by rw [this.2, h1b]⟩
    · have := guarded_events _ (ENTRY_ACTIONS ns) 0 e he
      refine ⟨by rw [this.1, h2s, h1s], by rw [this.2, h2b, h1b]⟩

lemma do_print_eq (p : VTParser) :
    do_print p =
      (⟨p.state, [], [], false, p.ch_bytes, p.utf8_ch, []⟩,
       [⟨VTAction.print, 0, p.state, [], [], false, p.print_buf⟩]) := by
  cases p; rfl

/-! ### Event-stream bookkeeping lemmas -/

lemma printPayload_append (xs ys : List VTEvent) :
    printPayload (xs ++ ys) = printPayload xs ++ printPayload ys := by
  induction xs with
  | nil => rfl
  | cons e es ih => simp [printPayload, ih]

lemma nonPrintEvents_append (xs ys : List VTEvent) :
    nonPrintEvents (xs ++ ys) = nonPrintEvents xs ++ nonPrintEvents ys := by
  simp [nonPrintEvents, List.filter_append]

lemma printPayload_eq_nil (es : List VTEvent) (h : ∀ e ∈ es, e.print_buf = []) :
    printPayload es = [] := by
  induction es with
  | nil => rfl
  | cons e rest ih =>
    simp only [printPayload]
    rw [ih (fun x hx => h x (List.mem_cons_of_mem e hx)), h e (List.mem_cons_self e rest)]
    split <;> simp

lemma processBytes_append (p : VTParser) (xs ys : List (Fin 256)) :
    processBytes p (xs ++ ys) =
      ((processBytes (processBytes p xs).1 ys).1,
       (processBytes p xs).2 ++ (processBytes (processBytes p xs).1 ys).2) := by
  induction xs generalizing p with
  | nil => simp [processBytes]
  | cons b rest ih => simp [processBytes, ih]

/-! ### Print-buffer / ground-state invariant lemmas -/

lemma drain_buf_nil (p : VTParser) :
    (if p.print_buf.length ≠ 0 then do_print p else (p, ([] : List VTEvent))).1.print_buf
      = [] := by
  split
  · rw [do_print_eq]
  · next hz =>
    have : p.print_buf.length = 0 := by omega
    exact List.length_eq_zero.mp this

lemma drain_state (p : VTParser) :
    (if p.print_buf.length ≠ 0 then do_print p else (p, ([] : List VTEvent))).1.state
      = p.state := by
  split
  · rw [do_print_eq]
  · rfl

lemma parse_ch_buf_ground (p : VTParser) (ch : Nat)
    (h : p.print_buf ≠ [] → p.state = VTState.ground) :
    (parse_ch p ch).1.print_buf ≠ [] → (parse_ch p ch).1.state = VTState.ground := by
  unfold parse_ch
  split
  next hc =>
    dsimp only
    split
    · rw [do_print_eq]
      intro hh; exact absurd rfl hh
    · intro _; exact hc.1
  next hc =>
    intro hb
    exfalso
    apply hb
    have h2 := (do_state_change_fields
      (if p.print_buf.length ≠ 0 then do_print p else (p, [])).1
      (STATE_TABLE (if p.print_buf.length ≠ 0 then do_print p else (p, [])).1.state ch)
      ch).2.2.1
    simp only
    rw [h2, drain_buf_nil]

lemma vtparse_byte_buf_ground (p : VTParser) (b : Fin 256)
    (h : p.print_buf ≠ [] → p.state = VTState.ground) :
    (vtparse_byte p b).1.print_buf ≠ [] → (vtparse_byte p b).1.state = VTState.ground := by
  unfold vtparse_byte
  split
  · dsimp only
    split
    · exact h
    · exact parse_ch_buf_ground _ _ h
  · split
    · exact h
    · exact parse_ch_buf_ground _ _ h

lemma processBytes_buf_ground (bs : List (Fin 256)) :
    ∀ p : VTParser, (p.print_buf ≠ [] → p.state = VTState.ground) →
      (processBytes p bs).1.print_buf ≠ [] →
        (processBytes p bs).1.state = VTState.ground := by
  induction bs with
  | nil => intro p h; exact h
  | cons b rest ih =>
    intro p h
    exact ih (vtparse_byte p b).1 (vtparse_byte_buf_ground p b h)

/-! ### Claim theorems -/

/-- C5: at every point during processing of any input, a non-empty print
buffer implies the machine is in GROUND: the invariant holds of the state
reached after any number of byte steps from any state satisfying it, and
the freshly initialized parser satisfies it (empty buffer). -/
theorem c5_print_buf_implies_ground (p : VTParser) (bs : List (Fin 256))
    (h : p.print_buf ≠ [] → p.state = VTState.ground) :
    ((processBytes p bs).1.print_buf ≠ [] →
      (processBytes p bs).1.state = VTState.ground) ∧
    (vtparse_init.print_buf ≠ [] → vtparse_init.state = VTState.ground) := by
  refine ⟨processBytes_buf_ground bs p h, ?_⟩
  intro hh; exact absurd rfl hh

/-- Witness for C5 at a concrete input: after feeding the single printable
byte 0x41 from the initial state the buffer is non-empty, so the theorem
yields that the parser is in GROUND. -/
theorem c5_witness :
    (processBytes vtparse_init [(0x41 : Fin 256)]).1.state = VTState.ground :=
  (c5_print_buf_implies_ground vtparse_init [(0x41 : Fin 256)]
    (by intro hh; exact absurd rfl hh)).1 (by decide)

/-- C9: after vtparse or vtparsew returns, the print buffer is empty: a
non-empty buffer is drained by the final PRINT dispatch, which resets the
length. -/
theorem c9_final_drain (p q : VTParser) (data : List (Fin 256)) (wide : List Nat) :
    (vtparse p data).1.print_buf = [] ∧ (vtparsew q wide).1.print_buf = [] := by
  constructor
  · unfold vtparse
    dsimp only
    split
    · rw [do_print_eq]
    · next hz =>
      have : (processBytes p data).1.print_buf.length = 0 := by omega
      exact List.length_eq_zero.mp this
  · unfold vtparsew
    dsimp only
    split
    · rw [do_print_eq]
    · next hz =>
      have : (processCodePoints q wide).1.print_buf.length = 0 := by omega
      exact List.length_eq_zero.mp this

/-- C1: refuted on the code: do_action's PARAM case increments num_params
on every semicolon with no bound check, so ESC [ followed by seventeen
semicolons drives num_params to 17, past MAX_PARAMS = 16 (the C code
writes params[16] out of bounds).  The spec states the bound as an
invariant, so this is a code bug, witnessed here by evaluation. -/
theorem c1_num_params_overflow :
    MAX_PARAMS < (processBytes vtparse_init c1_failing_input).1.params.length ∧
    (processBytes vtparse_init c1_failing_input).1.params.length = 17 := by
  constructor <;> decide

/-- C8: refuted on the code: the loop variable ch of vtparse is an
unsigned char, so the assignment ch = utf8_ch = (utf8_ch << 6) | (b & 0x3F)
truncates the completed code point U+2603 to 0x03 before parse_ch sees it;
the bytes E2 98 83 therefore produce a single EXECUTE event with code
point 3 (ETX) instead of the PRINT event with payload [0x2603] that the
spec requires, even though the utf8_ch accumulator holds 0x2603. -/
theorem c8_snowman_truncated :
    (vtparse vtparse_init c8_failing_input).2 =
      [⟨VTAction.execute, 3, VTState.ground, [], [], false, []⟩] ∧
    (vtparse vtparse_init c8_failing_input).1.utf8_ch = 0x2603 := by
  constructor <;> decide

/-- C10: a byte in 0x80..0xBF arriving while not mid-sequence
(ch_bytes = 1) is silently discarded: no event is emitted, no buffer is
touched, utf8_ch is reset to 0 and ch_bytes stays 1 (the leading-ones loop
stops at bit 6, giving ch_bytes = 7 - 6 = 1, and the length switch has no
case 1). -/
theorem c10_orphan_continuation (p : VTParser) (b : Fin 256)
    (h1 : 0x80 ≤ b.val) (h2 : b.val ≤ 0xBF) (h3 : p.ch_bytes = 1) :
    vtparse_byte p b = ({p with utf8_ch := 0}, []) := by
  have hb : (b.val / 64) % 2 = 0 := by omega
  rcases p with ⟨s, ic, pa, fl, cb0, u0, pb⟩
  simp only at h3
  subst h3
  simp [vtparse_byte, h1, hb]

/-- Witness for C10: the orphan continuation byte 0x80 fed to the freshly
initialized parser is discarded without any event. -/
theorem c10_witness :
    vtparse_byte vtparse_init ⟨0x80, by norm_num⟩ =
      ({vtparse_init with utf8_ch := 0}, []) :=
  c10_orphan_continuation vtparse_init ⟨0x80, by norm_num⟩ (by norm_num) (by norm_num) rfl

/-! ### ERROR characterization lemmas -/

lemma do_action_error_iff (p : VTParser) (ch : Nat) (a : Option VTAction) :
    (∃ e ∈ (do_action p a ch).2, e.action = VTAction.error) ↔
      (a = none ∨ a = some VTAction.error) := by
  rcases a with _ | a
  · simp [do_action, snap]
  · cases a
    all_goals simp only [do_action, snap]
    all_goals repeat' split
    all_goals simp

lemma guarded_error_iff (p : VTParser) (ch : Nat) (a : Option VTAction) :
    (∃ e ∈ (guarded_action p a ch).2, e.action = VTAction.error) ↔
      a = some VTAction.error := by
  rcases a with _ | a
  · simp [guarded_action]
  · rw [show guarded_action p (some a) ch = do_action p (some a) ch from rfl,
      do_action_error_iff]
    simp

lemma entry_exit_no_error (s : VTState) :
    EXIT_ACTIONS s ≠ some VTAction.error ∧ ENTRY_ACTIONS s ≠ some VTAction.error := by
  cases s <;> simp [EXIT_ACTIONS, ENTRY_ACTIONS]

/-- C2, corrected: ERROR reaches the callback exactly when the action
executor receives an action code outside the known set.  Because the
no-state-change branch of do_state_change calls do_action unconditionally,
this includes the zero "no action" code: a transition encoding neither a
new state nor an action produces one ERROR callback, not silence.  When no
state change is present the driver performs exactly the executor call with
the transition's raw action and the triggering code point. -/
theorem c2_error_characterization (p : VTParser) (c : StateChange) (ch : Nat) :
    ((∃ e ∈ (do_state_change p c ch).2, e.action = VTAction.error) ↔
      (c.action = some VTAction.error ∨ (c.toState = none ∧ c.action = none))) ∧
    (c.toState = none → do_state_change p c ch = do_action p c.action ch) := by
  rcases c with ⟨ts, a⟩
  rcases ts with _ | ns
  · refine ⟨?_, fun _ => rfl⟩
    simp only [do_state_change, do_action_error_iff]
    tauto
  · refine ⟨?_, fun h => by cases h⟩
    simp only [do_state_change, List.append_assoc, List.mem_append]
    constructor
    · rintro ⟨e, he, herr⟩
      rcases he with he | he | he
      · exact absurd ((guarded_error_iff _ _ _).mp ⟨e, he, herr⟩)
          (entry_exit_no_error p.state).1
      · exact Or.inl ((guarded_error_iff _ _ _).mp ⟨e, he, herr⟩)
      · exact absurd ((guarded_error_iff _ _ _).mp ⟨e, he, herr⟩)
          (entry_exit_no_error ns).2
    · rintro (ha | ⟨h1, -⟩)
      · obtain ⟨e, he, herr⟩ := (guarded_error_iff
          (guarded_action p (EXIT_ACTIONS p.state) 0).1 ch a).mpr ha
        exact ⟨e, Or.inr (Or.inl he), herr⟩
      · cases h1

/-- Counterexample for C2 as stated: a transition encoding neither a new
state nor an action does produce a callback: executing it from the initial
parser on code point 0x41 yields an ERROR event with code point 0. -/
theorem c2_counterexample :
    (do_state_change vtparse_init ⟨none, none⟩ 0x41).2 =
      [⟨VTAction.error, 0, VTState.ground, [], [], false, []⟩] ∧
    (do_state_change vtparse_init ⟨none, none⟩ 0x41).2 ≠ [] := by
  constructor <;> decide

/-- Witness for C2: a no-state-change transition carrying EXECUTE is
performed as exactly the executor call with the triggering code point. -/
theorem c2_witness :
    do_state_change vtparse_init ⟨none, some VTAction.execute⟩ 0x07 =
      do_action vtparse_init (some VTAction.execute) 0x07 :=
  (c2_error_characterization vtparse_init ⟨none, some VTAction.execute⟩ 0x07).2 rfl

/-- C4: a transition that carries a new state performs, in order, the exit
action of the current state with code point 0, the transition's action
with the triggering code point, and the entry action of the new state with
code point 0 (absent actions skipped), and assigns the new state only
afterwards: the machine result equals the plain sequencing of those action
executions followed by the state assignment, the final state is the new
state, and every event emitted during the transition still snapshots the
old state. -/
theorem c4_transition_ordering (p : VTParser) (ns : VTState) (a : Option VTAction)
    (ch : Nat) :
    do_state_change p ⟨some ns, a⟩ ch =
      ({(run_acts p (opt_act (EXIT_ACTIONS p.state) 0 ++ opt_act a ch ++
          opt_act (ENTRY_ACTIONS ns) 0)).1 with state := ns},
       (run_acts p (opt_act (EXIT_ACTIONS p.state) 0 ++ opt_act a ch ++
          opt_act (ENTRY_ACTIONS ns) 0)).2) ∧
    (do_state_change p ⟨some ns, a⟩ ch).1.state = ns ∧
    (∀ e ∈ (do_state_change p ⟨some ns, a⟩ ch).2, e.state = p.state) := by
  refine ⟨?_, ?_, ?_⟩
  · cases hE : EXIT_ACTIONS p.state <;> cases a <;> cases hN : ENTRY_ACTIONS ns <;>
      simp [do_state_change, guarded_action, run_acts, opt_act, hE, hN]
  · have h := (do_state_change_fields p ⟨some ns, a⟩ ch).2.2.2.1
    simpa using h
  · intro e he
    exact ((do_state_change_fields p ⟨some ns, a⟩ ch).2.2.2.2 e he).1

/-! ### Flag-discipline (ghost) lemmas for C7 -/

lemma ghost_do_action (p : VTParser) (g : Bool) (a : Option VTAction) (ch : Nat)
    (h : p.ignore_flagged = true → g = true) :
    (do_action p a ch).1.ignore_flagged = true → ghost_action g p a = true := by
  rcases a with _ | a
  · simpa [do_action, ghost_action] using h
  · cases a
    all_goals simp only [do_action, ghost_action]
    all_goals repeat' split
    all_goals simp_all

lemma ghost_guarded (p : VTParser) (g : Bool) (a : Option VTAction) (ch : Nat)
    (h : p.ignore_flagged = true → g = true) :
    (guarded_action p a ch).1.ignore_flagged = true → ghost_action g p a = true := by
  rcases a with _ | a
  · simpa [guarded_action, ghost_action] using h
  · exact ghost_do_action p g (some a) ch h

lemma ghost_dsc (p : VTParser) (g : Bool) (c : StateChange) (ch : Nat)
    (h : p.ignore_flagged = true → g = true) :
    (do_state_change p c ch).1.ignore_flagged = true →
      ghost_state_change g p c ch = true := by
  rcases c with ⟨ts, a⟩
  rcases ts with _ | ns
  · exact ghost_do_action p g a ch h
  · simp only [do_state_change, ghost_state_change]
    intro hf
    have h1 := ghost_guarded p g (EXIT_ACTIONS p.state) 0 h
    have h2 := ghost_guarded (guarded_action p (EXIT_ACTIONS p.state) 0).1
      (ghost_action g p (EXIT_ACTIONS p.state)) a ch h1
    have h3 := ghost_guarded
      (guarded_action (guarded_action p (EXIT_ACTIONS p.state) 0).1 a ch).1
      (ghost_action (ghost_action g p (EXIT_ACTIONS p.state))
        (guarded_action p (EXIT_ACTIONS p.state) 0).1 a)
      (ENTRY_ACTIONS ns) 0 h2
    exact h3 (by simpa using hf)

lemma ghost_do_print (p : VTParser) (g : Bool) :
    (do_print p).1.ignore_flagged = true → g = true := by
  rw [do_print_eq]
  intro hf
  exact absurd hf (by simp)

lemma ghost_parse_ch_pres (p : VTParser) (g : Bool) (ch : Nat)
    (h : p.ignore_flagged = true → g = true) :
    (parse_ch p ch).1.ignore_flagged = true → ghost_parse_ch g p ch = true := by
  unfold parse_ch ghost_parse_ch
  split
  · dsimp only
    split
    · exact ghost_do_print _ g
    · exact h
  · dsimp only
    refine ghost_dsc _ g _ ch ?_
    split
    · exact ghost_do_print p g
    · exact h

lemma ghost_byte_pres (p : VTParser) (g : Bool) (b : Fin 256)
    (h : p.ignore_flagged = true → g = true) :
    (vtparse_byte p b).1.ignore_flagged = true → ghost_byte g p b = true := by
  unfold vtparse_byte ghost_byte
  split
  · dsimp only
    split
    · exact h
    · exact ghost_parse_ch_pres _ g _ h
  · split
    · exact h
    · exact ghost_parse_ch_pres _ g _ h

lemma ghost_bytes_pres (bs : List (Fin 256)) :
    ∀ (p : VTParser) (g : Bool), (p.ignore_flagged = true → g = true) →
      (processBytes p bs).1.ignore_flagged = true → ghost_bytes g p bs = true := by
  induction bs with
  | nil => intro p g h; exact h
  | cons b rest ih =>
    intro p g h
    exact ih (vtparse_byte p b).1 (ghost_byte g p b) (ghost_byte_pres p g b h)

/-- C7: a COLLECT arriving with the intermediates at capacity only sets
ignore_flagged, leaving the array and its count unchanged; below capacity
it appends the byte; and the flag can be true only when the ghost tracker
is true, i.e. only when some COLLECT has been rejected for capacity since
the most recent CLEAR (the tracker is set exactly by a rejected COLLECT
and reset exactly by CLEAR). -/
theorem c7_collect_and_flag (p : VTParser) (g : Bool) (ch : Nat) (bs : List (Fin 256)) :
    (MAX_INTERMEDIATE_CHARS < p.intermediate_chars.length + 1 →
      do_action p (some VTAction.collect) ch = ({p with ignore_flagged := true}, [])) ∧
    (p.intermediate_chars.length + 1 ≤ MAX_INTERMEDIATE_CHARS →
      do_action p (some VTAction.collect) ch =
        ({p with intermediate_chars := p.intermediate_chars ++ [ch % 256]}, [])) ∧
    ((p.ignore_flagged = true → g = true) →
      (processBytes p bs).1.ignore_flagged = true → ghost_bytes g p bs = true) := by
  refine ⟨?_, ?_, ghost_bytes_pres bs p g⟩
  · intro hcap
    simp [do_action, hcap]
  · intro hcap
    rw [do_action, if_neg (by omega)]

/-- Witness for C7 at concrete inputs: with two intermediates already
collected the third COLLECT only sets the flag, an empty parser appends,
and after ESC plus three intermediates (which leaves the flag set) the
ghost tracker really records a rejected COLLECT since the last CLEAR. -/
theorem c7_witness :
    do_action ⟨VTState.escape, [32, 33], [], false, 1, 0, []⟩
        (some VTAction.collect) 0x24 =
      ({(⟨VTState.escape, [32, 33], [], false, 1, 0, []⟩ : VTParser) with
          ignore_flagged := true}, []) ∧
    do_action vtparse_init (some VTAction.collect) 0x24 =
      ({vtparse_init with intermediate_chars := [0x24]}, []) ∧
    ghost_bytes false vtparse_init [0x1B, 0x20, 0x20, 0x20] = true := by
  refine ⟨(c7_collect_and_flag ⟨VTState.escape, [32, 33], [], false, 1, 0, []⟩
      false 0x24 []).1 (by decide),
    ?_,
    (c7_collect_and_flag vtparse_init false 0x24 [0x1B, 0x20, 0x20, 0x20]).2.2
      (by decide) (by decide)⟩
  have h := (c7_collect_and_flag vtparse_init false 0x24 []).2.1 (by decide)
  simpa using h

/-! ### Signed 32-bit parameter range lemmas for C6 -/

lemma wrap32_range (x : Int) :
    -2147483648 ≤ wrap32 x ∧ wrap32 x < 2147483648 := by
  unfold wrap32
  omega

lemma wrap32_exact (x : Int) (h1 : -2147483648 ≤ x) (h2 : x < 2147483648) :
    wrap32 x = x := by
  unfold wrap32
  omega

lemma bumpLast_range (ch : Nat) (l : List Int)
    (h : ∀ v ∈ l, -2147483648 ≤ v ∧ v < 2147483648) :
    ∀ v ∈ bumpLast ch l, -2147483648 ≤ v ∧ v < 2147483648 := by
  induction l with
  | nil => simp [bumpLast]
  | cons x xs ih =>
    cases xs with
    | nil =>
      intro v hv
      simp only [bumpLast, List.mem_singleton] at hv
      subst hv
      exact wrap32_range _
    | cons y ys =>
      intro v hv
      rcases List.mem_cons.mp hv with hv | hv
      · exact h v (by simp [hv])
      · exact ih (fun w hw => h w (List.mem_cons_of_mem x hw)) v hv

lemma do_action_range (p : VTParser) (a : Option VTAction) (ch : Nat)
    (h : paramsInRange p) : paramsInRange (do_action p a ch).1 := by
  rcases a with _ | a
  · simpa [do_action]
  · cases a
    case param =>
      simp only [do_action]
      split
      · intro v hv
        simp only at hv
        rcases List.mem_append.mp hv with hv | hv
        · exact h v hv
        · simp only [List.mem_singleton] at hv; subst hv; constructor <;> norm_num
      · intro v hv
        simp only at hv
        refine bumpLast_range ch _ ?_ v hv
        split
        · intro w hw
          simp only [List.mem_singleton] at hw
          subst hw; constructor <;> norm_num
        · exact h
    case collect =>
      simp only [do_action]
      split <;> simpa [paramsInRange]
    all_goals simpa [do_action, paramsInRange]

lemma guarded_range (p : VTParser) (a : Option VTAction) (ch : Nat)
    (h : paramsInRange p) : paramsInRange (guarded_action p a ch).1 := by
  rcases a with _ | a
  · simpa [guarded_action]
  · exact do_action_range p (some a) ch h

lemma dsc_range (p : VTParser) (c : StateChange) (ch : Nat) (h : paramsInRange p) :
    paramsInRange (do_state_change p c ch).1 := by
  rcases c with ⟨ts, a⟩
  rcases ts with _ | ns
  · exact do_action_range p a ch h
  · simp only [do_state_change]
    intro v hv
    exact guarded_range _ _ 0 (guarded_range _ a ch (guarded_range p _ 0 h)) v hv

lemma do_print_range (p : VTParser) : paramsInRange (do_print p).1 := by
  rw [do_print_eq]
  intro v hv
  simp at hv

lemma parse_ch_range (p : VTParser) (ch : Nat) (h : paramsInRange p) :
    paramsInRange (parse_ch p ch).1 := by
  unfold parse_ch
  split
  · dsimp only
    split
    · exact do_print_range _
    · simpa
  · dsimp only
    refine dsc_range _ _ ch ?_
    split
    · exact do_print_range p
    · exact h

lemma vtparse_byte_range (p : VTParser) (b : Fin 256) (h : paramsInRange p) :
    paramsInRange (vtparse_byte p b).1 := by
  unfold vtparse_byte
  split
  · dsimp only
    split
    · simpa
    · exact parse_ch_range _ _ (by simpa)
  · split
    · simpa
    · exact parse_ch_range _ _ h

lemma processBytes_range (bs : List (Fin 256)) :
    ∀ p : VTParser, paramsInRange p → paramsInRange (processBytes p bs).1 := by
  induction bs with
  | nil => intro p h; exact h
  | cons b rest ih =>
    intro p h
    exact ih (vtparse_byte p b).1 (vtparse_byte_range p b h)

/-- Counterexample for C6 as stated: parameters can go negative.  The
accumulation wraps as a C int, so ESC [ followed by the ten digits of
2147483648 leaves params[0] = -2^31 < 0. -/
theorem c6_counterexample :
    (processBytes vtparse_init c6_failing_input).1.params = [-2147483648] ∧
    ¬ (∀ v ∈ (processBytes vtparse_init c6_failing_input).1.params, 0 ≤ v) := by
  constructor <;> decide

/-- C6, corrected: each PARAM digit step computes the exact decimal value
10*v + d as long as that value stays below 2^31 (so parameters remain
non-negative until a parameter overflows the signed 32-bit range), and on
every input every active parameter stays within the signed 32-bit range
[-2^31, 2^31). -/
theorem c6_param_wrap (p : VTParser) (bs : List (Fin 256)) (v : Int) (ch : Nat)
    (hv : 0 ≤ v) (hch : 48 ≤ ch)
    (hsmall : 10 * v + ((ch : Int) - 48) < 2147483648) :
    wrap32 (wrap32 (v * 10) + ((ch : Int) - 48)) = 10 * v + ((ch : Int) - 48) ∧
    (paramsInRange p → paramsInRange (processBytes p bs).1) := by
  refine ⟨?_, processBytes_range bs p⟩
  have hd : (0 : Int) ≤ (ch : Int) - 48 := by
    have : (48 : Int) ≤ (ch : Int) := by exact_mod_cast hch
    omega
  have h1 : wrap32 (v * 10) = v * 10 := wrap32_exact _ (by omega) (by omega)
  rw [h1]
  have h2 : wrap32 (v * 10 + ((ch : Int) - 48)) = v * 10 + ((ch : Int) - 48) :=
    wrap32_exact _ (by omega) (by omega)
  rw [h2]; ring

/-- Witness for C6 at concrete inputs: accumulating the digit 1 onto the
parameter value 3 yields exactly 31, and the range invariant holds of the
initial parser trivially. -/
theorem c6_witness :
    wrap32 (wrap32 (3 * 10) + ((49 : Nat) - 48 : Int)) = 10 * 3 + ((49 : Nat) - 48 : Int) ∧
    (paramsInRange vtparse_init → paramsInRange (processBytes vtparse_init []).1) := by
  have h := c6_param_wrap vtparse_init [] 3 49 (by norm_num) (by norm_num) (by norm_num)
  exact ⟨by simpa using h.1, h.2⟩

/-! ### Drain and ledger lemmas for the split-equivalence claim -/

lemma drainIf_buf (p : VTParser) : (drainIf p).print_buf = [] := by
  unfold drainIf
  split
  · rw [do_print_eq]
  · next hz =>
    have : p.print_buf.length = 0 := by omega
    exact List.length_eq_zero.mp this

lemma drainIf_eq_zero (p : VTParser) (hz : countersZero p) :
    drainIf p = ⟨p.state, [], [], false, p.ch_bytes, p.utf8_ch, []⟩ := by
  obtain ⟨h1, h2, h3⟩ := hz
  unfold drainIf
  split
  · rw [do_print_eq]
  · next hb =>
    have hbuf : p.print_buf = [] := List.length_eq_zero.mp (by omega)
    rcases p with ⟨s, ic, pa, fl, cb, u, pb⟩
    simp only at h1 h2 h3 hbuf
    subst h1; subst h2; subst h3; subst hbuf
    rfl

lemma rel_coreEq (p q : VTParser) (h : SplitRel p q) : coreEq p q := by
  rcases h with rfl | ⟨hc, -, -⟩ | ⟨hc, -, -⟩
  · exact ⟨rfl, rfl, rfl⟩
  · exact hc
  · exact hc

lemma rel_drained (p q : VTParser) (h : SplitRel p q) : drainIf p = drainIf q := by
  rcases h with rfl | ⟨hc, hp, hq⟩ | ⟨hc, hq, u, hu, hbuf⟩
  · rfl
  · rw [drainIf_eq_zero p hp, drainIf_eq_zero q hq, hc.1, hc.2.1, hc.2.2]
  · have hpb : p.print_buf.length ≠ 0 := by
      rw [hbuf]
      simp only [List.length_append]
      have : u.length ≠ 0 := fun hz => hu (List.length_eq_zero.mp hz)
      omega
    rw [drainIf_eq_zero q hq]
    unfold drainIf
    rw [if_pos hpb, do_print_eq]
    rw [hc.1, hc.2.1, hc.2.2]

lemma nonPrint_do_print (p : VTParser) : nonPrintEvents (do_print p).2 = [] := by
  rw [do_print_eq]
  simp [nonPrintEvents]

lemma nonPrint_drainEvents (p : VTParser) : nonPrintEvents (drainEvents p) = [] := by
  unfold drainEvents
  split
  · exact nonPrint_do_print p
  · rfl

lemma printPayload_do_print (p : VTParser) :
    printPayload (do_print p).2 = p.print_buf := by
  rw [do_print_eq]
  simp [printPayload]

lemma printPayload_drainEvents (p : VTParser) :
    printPayload (drainEvents p) = p.print_buf := by
  unfold drainEvents
  split
  · exact printPayload_do_print p
  · next hz =>
    exact (List.length_eq_zero.mp (by omega)).symm

lemma printPayload_dsc (p : VTParser) (c : StateChange) (ch : Nat)
    (h : p.print_buf = []) :
    printPayload (do_state_change p c ch).2 = [] := by
  apply printPayload_eq_nil
  intro e he
  rw [((do_state_change_fields p c ch).2.2.2.2 e he).2, h]

lemma parse_ch_else (p : VTParser) (ch : Nat)
    (hg : ¬(p.state = VTState.ground ∧ 0x20 ≤ ch)) :
    parse_ch p ch =
      ((do_state_change (drainIf p) (STATE_TABLE (drainIf p).state ch) ch).1,
       drainEvents p ++
         (do_state_change (drainIf p) (STATE_TABLE (drainIf p).state ch) ch).2) := by
  unfold parse_ch drainIf drainEvents
  rw [if_neg hg]
  by_cases hb : p.print_buf.length ≠ 0 <;> simp [hb]

lemma ledger_parse_ch (p : VTParser) (ch : Nat) :
    p.print_buf ++ deltaCh p ch =
      printPayload (parse_ch p ch).2 ++ (parse_ch p ch).1.print_buf := by
  by_cases hg : p.state = VTState.ground ∧ 0x20 ≤ ch
  · rw [parse_ch, if_pos hg]
    unfold deltaCh
    rw [if_pos hg]
    dsimp only
    split
    · rw [do_print_eq]
      simp [printPayload]
    · simp [printPayload]
  · rw [parse_ch_else p ch hg]
    unfold deltaCh
    rw [if_neg hg]
    have h1 : (do_state_change (drainIf p) (STATE_TABLE (drainIf p).state ch) ch).1.print_buf
        = [] := by
      rw [(do_state_change_fields _ _ _).2.2.1, drainIf_buf]
    have h2 : printPayload (do_state_change (drainIf p)
        (STATE_TABLE (drainIf p).state ch) ch).2 = [] :=
      printPayload_dsc _ _ _ (drainIf_buf p)
    simp [printPayload_append, h1, h2, printPayload_drainEvents]

lemma ledger_byte (p : VTParser) (b : Fin 256) :
    p.print_buf ++ deltaByte p b =
      printPayload (vtparse_byte p b).2 ++ (vtparse_byte p b).1.print_buf := by
  by_cases h1 : p.ch_bytes ≠ 1
  · rw [vtparse_byte, if_pos h1, deltaByte, if_pos h1]
    dsimp only
    by_cases h2 : p.ch_bytes - 1 ≠ 1
    · rw [if_pos h2, if_pos h2]
      simp [printPayload]
    · rw [if_neg h2, if_neg h2]
      have h3 := ledger_parse_ch
        (VTParser.mk p.state p.intermediate_chars p.params p.ignore_flagged
          (p.ch_bytes - 1) (p.utf8_ch * 64 % 4294967296 + b.val % 64) p.print_buf)
        ((p.utf8_ch * 64 % 4294967296 + b.val % 64) % 256)
      simpa using h3
  · rw [vtparse_byte, if_neg h1, deltaByte, if_neg h1]
    by_cases h8 : 0x80 ≤ b.val
    · rw [if_pos h8, if_pos h8]
      simp [printPayload]
    · rw [if_neg h8, if_neg h8]
      exact ledger_parse_ch _ _

lemma deltaCh_congr (p q : VTParser) (h : coreEq p q) (ch : Nat) :
    deltaCh p ch = deltaCh q ch := by
  unfold deltaCh
  rw [h.1]

lemma deltaByte_congr (p q : VTParser) (h : coreEq p q) (b : Fin 256) :
    deltaByte p b = deltaByte q b := by
  obtain ⟨hs, hcb, hu⟩ := h
  simp only [deltaByte, deltaCh, hs, hcb, hu]

lemma rel_update (p q : VTParser) (h : SplitRel p q) (u cb : Nat) :
    SplitRel {p with utf8_ch := u, ch_bytes := cb}
      {q with utf8_ch := u, ch_bytes := cb} := by
  rcases h with rfl | ⟨hc, hp, hq⟩ | ⟨hc, hq, w, hw, hbuf⟩
  · exact Or.inl rfl
  · exact Or.inr (Or.inl ⟨⟨hc.1, rfl, rfl⟩, hp, hq⟩)
  · exact Or.inr (Or.inr ⟨⟨hc.1, rfl, rfl⟩, hq, w, hw, hbuf⟩)

lemma rel_parse_ch (p q : VTParser) (ch : Nat) (h : SplitRel p q) :
    SplitRel (parse_ch p ch).1 (parse_ch q ch).1 ∧
    nonPrintEvents (parse_ch p ch).2 = nonPrintEvents (parse_ch q ch).2 := by
  obtain ⟨hs, hcb, hu⟩ := rel_coreEq p q h
  by_cases hg : p.state = VTState.ground ∧ 0x20 ≤ ch
  · have hgq : q.state = VTState.ground ∧ 0x20 ≤ ch := ⟨hs ▸ hg.1, hg.2⟩
    rw [parse_ch, if_pos hg, parse_ch, if_pos hgq]
    dsimp only
    rcases h with rfl | ⟨hc, hp, hq⟩ | ⟨hc, hq, u, hu0, hbuf⟩
    · exact ⟨Or.inl rfl, rfl⟩
    · constructor
      · split <;> split
        all_goals refine Or.inr (Or.inl ?_)
        · rw [do_print_eq, do_print_eq]
          exact ⟨⟨by simpa using hc.1, by simpa using hc.2.1, by simpa using hc.2.2⟩,
            ⟨rfl, rfl, rfl⟩, ⟨rfl, rfl, rfl⟩⟩
        · rw [do_print_eq]
          exact ⟨⟨by simpa using hc.1, by simpa using hc.2.1, by simpa using hc.2.2⟩,
            ⟨rfl, rfl, rfl⟩, ⟨hq.1, hq.2.1, hq.2.2⟩⟩
        · rw [do_print_eq]
          exact ⟨⟨by simpa using hc.1, by simpa using hc.2.1, by simpa using hc.2.2⟩,
            ⟨hp.1, hp.2.1, hp.2.2⟩, ⟨rfl, rfl, rfl⟩⟩
        · exact ⟨⟨by simpa using hc.1, by simpa using hc.2.1, by simpa using hc.2.2⟩,
            ⟨hp.1, hp.2.1, hp.2.2⟩, ⟨hq.1, hq.2.1, hq.2.2⟩⟩
      · split <;> split
        · rw [nonPrint_do_print, nonPrint_do_print]
        · rw [nonPrint_do_print]; rfl
        · rw [nonPrint_do_print]; rfl
        · rfl
    · have hlen : u.length ≠ 0 := fun hz => hu0 (List.length_eq_zero.mp hz)
      constructor
      · split <;> split
        · -- both drain
          refine Or.inr (Or.inl ?_)
          rw [do_print_eq, do_print_eq]
          exact ⟨⟨by simpa using hc.1, by simpa using hc.2.1, by simpa using hc.2.2⟩,
            ⟨rfl, rfl, rfl⟩, ⟨rfl, rfl, rfl⟩⟩
        · -- p drains, q appends
          refine Or.inr (Or.inl ?_)
          rw [do_print_eq]
          exact ⟨⟨by simpa using hc.1, by simpa using hc.2.1, by simpa using hc.2.2⟩,
            ⟨rfl, rfl, rfl⟩, ⟨hq.1, hq.2.1, hq.2.2⟩⟩
        · -- p appends, q drains: impossible, p's buffer is longer
          next hpcap hqcap =>
          exfalso
          apply hpcap
          simp only [List.length_append, List.length_singleton] at hqcap ⊢
          rw [hbuf]
          simp only [List.length_append]
          omega
        · -- neither drains: still a non-empty prefix apart
          refine Or.inr (Or.inr ?_)
          refine ⟨⟨by simpa using hc.1, by simpa using hc.2.1, by simpa using hc.2.2⟩,
            ⟨hq.1, hq.2.1, hq.2.2⟩, u, hu0, ?_⟩
          simp only
          rw [hbuf, List.append_assoc]
      · split <;> split
        · rw [nonPrint_do_print, nonPrint_do_print]
        · rw [nonPrint_do_print]; rfl
        · next hpcap hqcap =>
          exfalso
          apply hpcap
          simp only [List.length_append, List.length_singleton] at hqcap ⊢
          rw [hbuf]
          simp only [List.length_append]
          omega
        · rfl
  · have hgq : ¬(q.state = VTState.ground ∧ 0x20 ≤ ch) := by
      rw [← hs]; exact hg
    rw [parse_ch_else p ch hg, parse_ch_else q ch hgq, rel_drained p q h]
    refine ⟨Or.inl rfl, ?_⟩
    rw [nonPrintEvents_append, nonPrintEvents_append, nonPrint_drainEvents,
      nonPrint_drainEvents]

lemma rel_byte (p q : VTParser) (b : Fin 256) (h : SplitRel p q) :
    SplitRel (vtparse_byte p b).1 (vtparse_byte q b).1 ∧
    nonPrintEvents (vtparse_byte p b).2 = nonPrintEvents (vtparse_byte q b).2 := by
  obtain ⟨hs, hcb, hu⟩ := rel_coreEq p q h
  by_cases h1 : p.ch_bytes ≠ 1
  · have h1q : q.ch_bytes ≠ 1 := by rw [← hcb]; exact h1
    rw [vtparse_byte, if_pos h1, vtparse_byte, if_pos h1q]
    dsimp only
    rw [hcb, hu]
    by_cases h2 : q.ch_bytes - 1 ≠ 1
    · rw [if_pos h2, if_pos h2]
      exact ⟨rel_update p q h _ _, rfl⟩
    · rw [if_neg h2, if_neg h2]
      exact rel_parse_ch _ _ _ (rel_update p q h _ _)
  · have h1q : ¬q.ch_bytes ≠ 1 := by rw [← hcb]; exact h1
    rw [vtparse_byte, if_neg h1, vtparse_byte, if_neg h1q]
    by_cases h8 : 0x80 ≤ b.val
    · rw [if_pos h8, if_pos h8]
      dsimp only
      exact ⟨rel_update p q h _ _, rfl⟩
    · rw [if_neg h8, if_neg h8]
      exact rel_parse_ch p q b.val h

lemma rel_processBytes (bs : List (Fin 256)) :
    ∀ p q : VTParser, SplitRel p q →
      SplitRel (processBytes p bs).1 (processBytes q bs).1 ∧
      nonPrintEvents (processBytes p bs).2 = nonPrintEvents (processBytes q bs).2 ∧
      ∃ d : List Nat,
        p.print_buf ++ d =
          printPayload (processBytes p bs).2 ++ (processBytes p bs).1.print_buf ∧
        q.print_buf ++ d =
          printPayload (processBytes q bs).2 ++ (processBytes q bs).1.print_buf := by
  induction bs with
  | nil =>
    intro p q h
    exact ⟨h, rfl, [], by simp [processBytes, printPayload], by simp [processBytes, printPayload]⟩
  | cons b rest ih =>
    intro p q h
    obtain ⟨hrel1, hnp1⟩ := rel_byte p q b h
    obtain ⟨hrel2, hnp2, d2, hd2p, hd2q⟩ := ih (vtparse_byte p b).1 (vtparse_byte q b).1 hrel1
    refine ⟨by simpa [processBytes] using hrel2, ?_, ?_⟩
    · simp only [processBytes, nonPrintEvents_append]
      rw [hnp1, hnp2]
    · refine ⟨deltaByte p b ++ d2, ?_, ?_⟩
      · simp only [processBytes, printPayload_append, List.append_assoc]
        rw [← List.append_assoc p.print_buf, ledger_byte p b, List.append_assoc, hd2p]
      · have hd : deltaByte p b = deltaByte q b := deltaByte_congr p q (rel_coreEq p q h) b
        simp only [processBytes, printPayload_append, List.append_assoc]
        rw [hd, ← List.append_assoc q.print_buf, ledger_byte q b, List.append_assoc, hd2q]

lemma vtparse_eq (p : VTParser) (data : List (Fin 256)) :
    vtparse p data =
      (drainIf (processBytes p data).1,
       (processBytes p data).2 ++ drainEvents (processBytes p data).1) := by
  unfold vtparse drainIf drainEvents
  dsimp only
  by_cases hb : (processBytes p data).1.print_buf.length ≠ 0 <;> simp [hb]

lemma rel_drainIf_self (p : VTParser) : SplitRel p (drainIf p) := by
  by_cases hb : p.print_buf.length ≠ 0
  · have hd : drainIf p = ⟨p.state, [], [], false, p.ch_bytes, p.utf8_ch, []⟩ := by
      unfold drainIf
      rw [if_pos hb, do_print_eq]
    refine Or.inr (Or.inr ?_)
    rw [hd]
    refine ⟨⟨rfl, rfl, rfl⟩, ⟨rfl, rfl, rfl⟩, p.print_buf, ?_, by simp⟩
    intro hz
    exact hb (by rw [hz]; rfl)
  · have hd : drainIf p = p := by unfold drainIf; rw [if_neg hb]
    rw [hd]
    exact Or.inl rfl

/-- C3: feeding a byte stream split at any point as two consecutive
vtparse calls is observationally equivalent to feeding it whole: the
non-PRINT event subsequences (action, code point and the visible snapshot
of state, accumulators, flag and buffer) agree exactly, and the PRINT
events carry the same concatenated code-point payload, though possibly
split across a different number of PRINT events. -/
theorem c3_split_equivalence (p : VTParser) (xs ys : List (Fin 256)) :
    nonPrintEvents ((vtparse p xs).2 ++ (vtparse (vtparse p xs).1 ys).2) =
      nonPrintEvents (vtparse p (xs ++ ys)).2 ∧
    printPayload ((vtparse p xs).2 ++ (vtparse (vtparse p xs).1 ys).2) =
      printPayload (vtparse p (xs ++ ys)).2 := by
  obtain ⟨hrel, hnp, d, hdp, hdq⟩ :=
    rel_processBytes ys (processBytes p xs).1 (drainIf (processBytes p xs).1)
      (rel_drainIf_self (processBytes p xs).1)
  have hd2 : d = printPayload (processBytes (drainIf (processBytes p xs).1) ys).2 ++
      (processBytes (drainIf (processBytes p xs).1) ys).1.print_buf := by
    rw [drainIf_buf] at hdq
    simpa using hdq
  rw [vtparse_eq p xs]
  dsimp only
  rw [vtparse_eq (drainIf (processBytes p xs).1) ys, vtparse_eq p (xs ++ ys),
    processBytes_append]
  dsimp only
  constructor
  · simp only [nonPrintEvents_append, nonPrint_drainEvents, List.append_nil]
    rw [hnp]
  · simp only [printPayload_append, printPayload_drainEvents, List.append_assoc]
    rw [← hd2, hdp]

/-- Witness for C4 at a concrete transition: moving from GROUND to ESCAPE
with a PRINT transition action ends in ESCAPE, and the emitted event (the
PRINT with the triggering code point) still snapshots the old GROUND
state. -/
theorem c4_witness :
    (do_state_change vtparse_init ⟨some VTState.escape, some VTAction.print⟩ 65).1.state
        = VTState.escape ∧
    (⟨VTAction.print, 65, VTState.ground, [], [], false, []⟩ : VTEvent).state
        = vtparse_init.state :=
  ⟨(c4_transition_ordering vtparse_init VTState.escape (some VTAction.print) 65).2.1,
   (c4_transition_ordering vtparse_init VTState.escape (some VTAction.print) 65).2.2
      ⟨VTAction.print, 65, VTState.ground, [], [], false, []⟩ (by decide)⟩
